import Mathlib

/-!
Shallow embedding of the pyforestplot validation core.

Source files embedded here:
  - `pyforestplot/arg_validators.py` (`check_data`)
  - `pyforestplot/dataframe_utils.py` (`load_data`)

A pandas DataFrame is modelled as an ordered association list of named
columns over a common row index; a cell is either a numeric value
(modelled as `Rat`, standing for a Python float) or a string.  Python
exceptions are modelled by `Except Err`: `TypeError` becomes
`Err.typeKind`, `AssertionError` becomes `Err.constraintKind`, and a
pandas `KeyError` from looking up a missing column becomes
`Err.keyError`.  Warnings issued through `warnings.warn` are collected
in a list returned alongside the dataframe.
-/

/-- A cell of a dataframe column: a numeric value (Python float/int,
modelled as `Rat`) or a string. -/
inductive Val where
  | num (q : Rat)
  | str (s : String)
deriving DecidableEq, Repr

/-- A dataframe column is the ordered list of its cells. -/
abbrev Col := List Val

/-- First-match lookup in an association list of columns,
modelling `dataframe[name]` (column names are unique in pandas). -/
def lookupCol : List (String × Col) → String → Option Col
  | [], _ => none
  | (k, v) :: rest, n => if k = n then some v else lookupCol rest n

/-- Column assignment `dataframe[name] = col`: replace the column in
place if the name exists, otherwise append a new column at the end. -/
def setColList : List (String × Col) → String → Col → List (String × Col)
  | [], n, c => [(n, c)]
  | (k, v) :: rest, n, c =>
      if k = n then (n, c) :: rest else (k, v) :: setColList rest n c

/-- A pandas DataFrame: ordered named columns over a common row index. -/
structure DataFrame where
  cols : List (String × Col)
deriving DecidableEq, Repr

def DataFrame.getCol (df : DataFrame) (n : String) : Option Col :=
  lookupCol df.cols n

def DataFrame.setCol (df : DataFrame) (n : String) (c : Col) : DataFrame :=
  ⟨setColList df.cols n c⟩

def DataFrame.colNames (df : DataFrame) : List String :=
  df.cols.map Prod.fst

/-- Column lookup that is only used after the column's presence has been
established earlier in the pipeline (the numeric-coercion step has
already indexed every supplied column name). -/
def DataFrame.getColD (df : DataFrame) (n : String) : Col :=
  (df.getCol n).getD []

/-- Error kinds raised by the validator: `typeKind` models Python
`TypeError`, `constraintKind` models `AssertionError`, `keyError`
models the raw pandas `KeyError` on a missing column name. -/
inductive Err where
  | typeKind (msg : String)
  | constraintKind (msg : String)
  | keyError (key : String)
deriving DecidableEq, Repr

/-- Explicit bind for `Except Err`, used to write the validation
pipeline as the source's sequence of early-exiting steps. -/
def bindE {α β : Type} (x : Except Err α) (f : α → Except Err β) : Except Err β :=
  match x with
  | .error e => .error e
  | .ok a => f a

/-- `pandas.api.types.is_numeric_dtype`: a column holds numeric dtype
exactly when every cell is numeric. -/
def isNumericCol (c : Col) : Bool :=
  c.all fun v => match v with | .num _ => true | .str _ => false

/-- Python `str.lower` for the ASCII range: letters `A`-`Z` are shifted
to lowercase, every other character is kept. -/
def lowerChar (c : Char) : Char :=
  if 'A' ≤ c ∧ c ≤ 'Z' then Char.ofNat (c.toNat + 32) else c

def pyLower (s : String) : String :=
  ⟨s.data.map lowerChar⟩

/-- Python `str.strip()`: remove leading and trailing whitespace. -/
def pyStrip (s : String) : String :=
  ⟨((s.data.dropWhile Char.isWhitespace).reverse.dropWhile Char.isWhitespace).reverse⟩

/-- Numeric value of a digit list (`[]` reads as 0). -/
def natOfDigits (cs : List Char) : Nat :=
  cs.foldl (fun n c => 10 * n + (c.toNat - 48)) 0

/-- Split a character list at its first `.` (the part after the dot, when
one exists, still has to pass the all-digits test of the caller). -/
def breakDot : List Char → List Char × Option (List Char)
  | [] => ([], none)
  | c :: rest =>
      if c = '.' then ([], some rest)
      else
        let (ip, fp) := breakDot rest
        (c :: ip, fp)

/-- Model of Python `float(str)` for ASCII decimal literals: surrounding
whitespace stripped, optional sign, digits with an optional fractional
part, at least one digit overall (exponent, `inf` and `nan` forms are
not modelled; the claims are parametric in which strings coerce). -/
def parseFloat (s : String) : Option Rat :=
  let t := (pyStrip s).data
  let (neg, body) :=
    match t with
    | '-' :: rest => (true, rest)
    | '+' :: rest => (false, rest)
    | _ => (false, t)
  let mag : Option Rat :=
    match breakDot body with
    | (ip, none) =>
        if ip ≠ [] && ip.all Char.isDigit then some (natOfDigits ip : Rat) else none
    | (ip, some fp) =>
        if (ip = [] && fp = []) || !(ip.all Char.isDigit && fp.all Char.isDigit) then none
        else some ((natOfDigits ip : Rat) + (natOfDigits fp : Rat) / 10 ^ fp.length)
  mag.map fun q => if neg then -q else q

/-- Coercion of one cell to float: numbers stay, strings must parse. -/
def coerceVal : Val → Option Val
  | .num q => some (.num q)
  | .str s => (parseFloat s).map Val.num

/-- `column.astype(float)`: succeeds iff every cell coerces. -/
def coerceCol : Col → Option Col
  | [] => some []
  | v :: vs =>
      match coerceVal v, coerceCol vs with
      | some w, some ws => some (w :: ws)
      | _, _ => none

/-- One numeric-coercion check of `check_data`
(`arg_validators.py` lines 54-79): look the column up (a missing name
raises `KeyError`), leave numeric-dtype columns alone, otherwise
coerce to float, raising `TypeError` with the field's message when a
cell does not coerce. -/
def coerceField (df : DataFrame) (n : String) (msg : String) : Except Err DataFrame :=
  match df.getCol n with
  | none => .error (.keyError n)
  | some c =>
      if isNumericCol c then .ok df
      else
        match coerceCol c with
        | some c2 => .ok (df.setCol n c2)
        | none => .error (.typeKind msg)

/-- The coercion check for an optional column argument: skipped when the
argument is `None`. -/
def coerceOpt (df : DataFrame) (o : Option String) (msg : String) : Except Err DataFrame :=
  match o with
  | none => .ok df
  | some n => coerceField df n msg

/-- The whole numeric-coercion step, in source order:
estimate, then moerror, then ll, then hl. -/
def coerceAll (df : DataFrame) (estimate : String) (moerror ll hl : Option String) :
    Except Err DataFrame :=
  bindE (coerceField df estimate "Estimates should be float or int") fun df =>
  bindE (coerceOpt df moerror "Margin of error values should be float or int") fun df =>
  bindE (coerceOpt df ll "CI lowerlimit values should be float or int") fun df =>
  coerceOpt df hl "CI higherlimit values should be float or int"

/-- CI-source completeness check (`arg_validators.py` lines 85-99):
two successive asserts, each raising `AssertionError` with its message.
(The second message is unreachable: when `ll` or `hl` is absent and
`moerror` is absent too, the first assert has already fired.) -/
def ciComplete (moerror ll hl : Option String) : Except Err Unit :=
  bindE
    (if moerror.isNone then
      if ll.isSome && hl.isSome then .ok ()
      else .error (.constraintKind
        "If \"moerror\" is not provided, then \"ll\" and \"hl\" must be provided.")
    else .ok ()) fun _ =>
  if ll.isNone || hl.isNone then
    if moerror.isSome then .ok ()
    else .error (.constraintKind
      "If \"ll, hl\" is not provided, then \"moerror\" must be provided.")
  else .ok ()

/-- Elementwise column subtraction (pandas Series subtraction; both
columns are numeric whenever this runs in the pipeline). -/
def subVal : Val → Val → Val
  | .num a, .num b => .num (a - b)
  | _, _ => .str ""

def addVal : Val → Val → Val
  | .num a, .num b => .num (a + b)
  | _, _ => .str ""

def subCol (a b : Col) : Col := List.zipWith subVal a b

def addCol (a b : Col) : Col := List.zipWith addVal a b

/-- Derivation step (`arg_validators.py` lines 101-109): create the
missing CI columns.  The wildcard branches cover argument combinations
the completeness check has already ruled out. -/
def deriveCI (df : DataFrame) (estimate : String) (moerror ll hl : Option String) :
    DataFrame :=
  let df1 :=
    match moerror, ll with
    | none, some l => df.setCol "moerror" (subCol (df.getColD estimate) (df.getColD l))
    | _, _ => df
  let df2 :=
    match ll, moerror with
    | none, some m => df1.setCol "ll" (subCol (df1.getColD estimate) (df1.getColD m))
    | _, _ => df1
  match hl, moerror with
  | none, some m => df2.setCol "hl" (addCol (df2.getColD estimate) (df2.getColD m))
  | _, _ => df2

/-- Paired-length check for an annotation list and its header list
(`arg_validators.py` lines 142-155). -/
def pairLen (a b : Option (List String)) (msg : String) : Except Err Unit :=
  match a, b with
  | some x, some y =>
      if x.length = y.length then .ok () else .error (.constraintKind msg)
  | _, _ => .ok ()

/-- The fixed derived-annotation names accepted besides actual columns. -/
def acceptable_annotations : List String :=
  ["ci_range", "est_ci", "formatted_pval"]

/-- A single annotation entry passes the membership check when it is a
column of the (post-derivation) dataframe or an acceptable derived name. -/
def annGood (df : DataFrame) (c : String) : Bool :=
  df.colNames.contains c || acceptable_annotations.contains c

/-- Membership check over one annotation list (`arg_validators.py`
lines 166-178): the loop fails at the first entry that is neither a
dataframe column nor an acceptable derived name. -/
def memberCheck (df : DataFrame) (ann : Option (List String)) : Except Err Unit :=
  match ann with
  | none => .ok ()
  | some l =>
      match l.find? (fun c => !annGood df c) with
      | some c => .error (.constraintKind ("the field " ++ c ++ " is not found in dataframe."))
      | none => .ok ()

/-- Warning emitted when `varlabel` occurs in `addannote`
(`arg_validators.py` lines 184-187): one warning. -/
def warnLeft (varlabel : String) (addannote : Option (List String)) : List String :=
  match addannote with
  | some l =>
      if l.contains varlabel then
        [varlabel ++ " is a variable is already printed. Specifying " ++ varlabel ++
          " in \"addannote\" will lead to duplicate printing of " ++ varlabel ++ "."]
      else []
  | none => []

/-- Warnings emitted when `varlabel` occurs in `rightannote`
(`arg_validators.py` lines 189-194): the source issues two warnings. -/
def warnRight (varlabel : String) (rightannote : Option (List String)) : List String :=
  match rightannote with
  | some l =>
      if l.contains varlabel then
        [varlabel ++ " is a variable is already printed.",
         varlabel ++ " is a variable is already printed. Specifying " ++ varlabel ++
           " in \"rightannote\" will lead to duplicate printing of " ++ varlabel ++ "."]
      else []
  | none => []

/-- Steps 4-6 of `check_data` (`arg_validators.py` lines 138-202), run on
the post-derivation dataframe: paired-length checks, annotation
membership checks, warnings, and the final return. -/
def annTail (df : DataFrame) (varlabel : String)
    (addannote annoteheaders rightannote right_annoteheaders : Option (List String)) :
    Except Err (DataFrame × List String) :=
  bindE (pairLen addannote annoteheaders
    "addannote and annoteheaders should have same length.") fun _ =>
  bindE (pairLen rightannote right_annoteheaders
    "rightannote and right_annoteheaders should have same length.") fun _ =>
  bindE (memberCheck df addannote) fun _ =>
  bindE (memberCheck df rightannote) fun _ =>
  .ok (df, warnLeft varlabel addannote ++ warnRight varlabel rightannote)

/-- `check_data` (`arg_validators.py`): numeric coercion, CI completeness,
derivation of missing CI columns, annotation shape and membership checks,
warnings, and return of the (mutated) dataframe.  The Python
`isinstance(dataframe, DataFrame)` guard and the `is_list_like` guards on
the four annotation arguments are discharged by the types of this
embedding (`DataFrame` and `Option (List String)` respectively). -/
def check_data (df : DataFrame) (estimate varlabel : String)
    (moerror ll hl : Option String)
    (addannote annoteheaders rightannote right_annoteheaders : Option (List String)) :
    Except Err (DataFrame × List String) :=
  bindE (coerceAll df estimate moerror ll hl) fun df =>
  bindE (ciComplete moerror ll hl) fun _ =>
  annTail (deriveCI df estimate moerror ll hl) varlabel
    addannote annoteheaders rightannote right_annoteheaders

/-- The enumerated example-dataset names of `dataframe_utils.py`. -/
def available_data : List String := ["mortality"]

/-- Outcome of a successful `load_data` call: a CSV fetch from the fixed
URL template (the network transfer itself is outside the model). -/
inductive LoadResult where
  | fetch (url : String)
deriving DecidableEq, Repr

/-- `load_data` (`dataframe_utils.py`): lowercase and strip the name,
fetch the fixed URL on a recognized name, otherwise raise
`AssertionError` listing the valid names. -/
def load_data (name : String) : Except Err LoadResult :=
  let name := pyStrip (pyLower name)
  if available_data.contains name then
    .ok (.fetch ("https://raw.githubusercontent.com/lsys/pyforestplot/main/examples/data/"
      ++ name ++ ".csv"))
  else
    .error (.constraintKind
      (name ++ " not found. Should be one of '" ++ String.intercalate ", " available_data ++ "'"))

/-- Discriminator for a successful call. -/
def isOk {α : Type} : Except Err α → Bool
  | .ok _ => true
  | .error _ => false

/-! ### Sample dataframes used by the witnesses and counterexamples -/

/-- The spec's end-to-end example table with every statistic scaled by
ten to keep the entries integral: `var=["age","sex"]`, `est=[12, 8]`,
`mo=[3, 2]`. -/
def dfExA : DataFrame :=
  ⟨[("var", [Val.str "age", Val.str "sex"]),
    ("est", [Val.num 12, Val.num 8]),
    ("mo", [Val.num 3, Val.num 2])]⟩

/-- A table with an asymmetric confidence interval supplied as
lower/upper limits: `est=[1]`, `low=[0]`, `high=[5]`. -/
def dfExB : DataFrame :=
  ⟨[("var", [Val.str "a"]),
    ("est", [Val.num 1]),
    ("low", [Val.num 0]),
    ("high", [Val.num 5])]⟩

/-- A numeric table supplying all three of `mo`, `low`, `high`. -/
def dfExC : DataFrame :=
  ⟨[("var", [Val.str "a"]),
    ("est", [Val.num 1]),
    ("mo", [Val.num 2]),
    ("low", [Val.num 0]),
    ("high", [Val.num 5])]⟩

/-- A table whose statistic columns are numeric-looking strings. -/
def dfExS : DataFrame :=
  ⟨[("var", [Val.str "x"]),
    ("est", [Val.str "3"]),
    ("mo", [Val.str "4"]),
    ("low", [Val.str "1"]),
    ("high", [Val.str "5"])]⟩

/-- A table with one non-coercible string column. -/
def dfExT : DataFrame :=
  ⟨[("est", [Val.num 1]),
    ("low", [Val.num 0]),
    ("bad", [Val.str "abc"])]⟩

/-! ### Basic lemmas about the dataframe model -/

theorem DataFrame.eq_of_cols (df1 df2 : DataFrame) (h : df1.cols = df2.cols) : df1 = df2 := by
  cases df1
  cases df2
  simpa using h


theorem lookupCol_setColList_self (L : List (String × Col)) (n : String) (c : Col) :
    lookupCol (setColList L n c) n = some c := by
  induction L with
  | nil => simp [setColList, lookupCol]
  | cons p rest ih =>
      obtain ⟨k, v⟩ := p
      by_cases h : k = n
      · simp [setColList, lookupCol, h]
      · simp [setColList, lookupCol, h, ih]

theorem lookupCol_setColList_ne (L : List (String × Col)) (n m : String) (c : Col)
    (h : m ≠ n) : lookupCol (setColList L n c) m = lookupCol L m := by
  have h2 : n ≠ m := Ne.symm h
  induction L with
  | nil => simp [setColList, lookupCol, h2]
  | cons p rest ih =>
      obtain ⟨k, v⟩ := p
      by_cases hk : k = n
      · subst hk
        simp [setColList, lookupCol, h2]
      · simp [setColList, lookupCol, hk, ih]

theorem setColList_absent (L : List (String × Col)) (n : String) (c : Col)
    (h : lookupCol L n = none) : setColList L n c = L ++ [(n, c)] := by
  induction L with
  | nil => simp [setColList]
  | cons p rest ih =>
      obtain ⟨k, v⟩ := p
      by_cases hk : k = n
      · simp [lookupCol, hk] at h
      · simp [lookupCol, hk] at h
        simp [setColList, hk, ih h]

theorem setColList_self (L : List (String × Col)) (n : String) (c : Col)
    (h : lookupCol L n = some c) : setColList L n c = L := by
  induction L with
  | nil => simp [lookupCol] at h
  | cons p rest ih =>
      obtain ⟨k, v⟩ := p
      by_cases hk : k = n
      · subst hk
        simp [lookupCol] at h
        simp [setColList, h]
      · simp [lookupCol, hk] at h
        simp [setColList, hk, ih h]

theorem getCol_setCol_self (df : DataFrame) (n : String) (c : Col) :
    (df.setCol n c).getCol n = some c :=
  lookupCol_setColList_self df.cols n c

theorem getCol_setCol_ne (df : DataFrame) (n m : String) (c : Col) (h : m ≠ n) :
    (df.setCol n c).getCol m = df.getCol m :=
  lookupCol_setColList_ne df.cols n m c h

theorem setCol_eq_self (df : DataFrame) (n : String) (c : Col)
    (h : df.getCol n = some c) : df.setCol n c = df := by
  unfold DataFrame.setCol
  rw [setColList_self df.cols n c h]

theorem setCol_absent (df : DataFrame) (n : String) (c : Col)
    (h : df.getCol n = none) : (df.setCol n c).cols = df.cols ++ [(n, c)] :=
  setColList_absent df.cols n c h

theorem getCol_ne_none_of_getCol_some (df : DataFrame) (n m : String) (c : Col)
    (hs : df.getCol n = some c) (hn : df.getCol m = none) : n ≠ m := by
  intro h
  rw [h, hn] at hs
  exact Option.noConfusion hs

/-! ### Lemmas about numeric coercion -/

theorem coerceVal_isNum (v w : Val) (h : coerceVal v = some w) : ∃ q, w = Val.num q := by
  cases v with
  | num q => exact ⟨q, by simpa [coerceVal] using h.symm⟩
  | str s =>
      simp [coerceVal] at h
      obtain ⟨q, _, hq⟩ := h
      exact ⟨q, hq.symm⟩

theorem coerceCol_of_numeric (c : Col) (h : isNumericCol c = true) :
    coerceCol c = some c := by
  induction c with
  | nil => simp [coerceCol]
  | cons v vs ih =>
      simp [isNumericCol, List.all_cons] at h
      obtain ⟨hv, hvs⟩ := h
      cases v with
      | num q => simp [coerceCol, coerceVal, ih (by simpa [isNumericCol] using hvs)]
      | str s => simp at hv

theorem coerceCol_isNumeric (c c2 : Col) (h : coerceCol c = some c2) :
    isNumericCol c2 = true := by
  induction c generalizing c2 with
  | nil =>
      simp only [coerceCol, Option.some.injEq] at h
      rw [← h]
      rfl
  | cons v vs ih =>
      simp only [coerceCol] at h
      cases hv : coerceVal v with
      | none => simp [hv] at h
      | some w =>
          cases hvs : coerceCol vs with
          | none => simp [hv, hvs] at h
          | some ws =>
              simp [hv, hvs] at h
              obtain ⟨q, hq⟩ := coerceVal_isNum v w hv
              subst hq
              simp [← h, isNumericCol, List.all_cons]
              simpa [isNumericCol] using ih ws hvs

theorem isNumericCol_of_coerce_fail (c : Col) (h : coerceCol c = none) :
    isNumericCol c = false := by
  by_contra hb
  rw [coerceCol_of_numeric c (by simpa using hb)] at h
  exact Option.noConfusion h

/-! ### Evaluation lemmas for the pipeline steps -/

theorem coerceField_missing (df : DataFrame) (n : String) (msg : String)
    (h : df.getCol n = none) : coerceField df n msg = .error (.keyError n) := by
  simp [coerceField, h]

theorem coerceField_of_numeric (df : DataFrame) (n : String) (msg : String) (c : Col)
    (h : df.getCol n = some c) (hn : isNumericCol c = true) :
    coerceField df n msg = .ok df := by
  simp [coerceField, h, hn]

theorem coerceField_ok (df : DataFrame) (n : String) (msg : String) (c c2 : Col)
    (h : df.getCol n = some c) (hc : coerceCol c = some c2) :
    coerceField df n msg = .ok (df.setCol n c2) := by
  by_cases hn : isNumericCol c = true
  · have hcc := coerceCol_of_numeric c hn
    rw [hc] at hcc
    have hc2 : c2 = c := Option.some.inj hcc
    rw [hc2, setCol_eq_self df n c h]
    simp [coerceField, h, hn]
  · simp [coerceField, h, hn, hc]

theorem coerceField_fail (df : DataFrame) (n : String) (msg : String) (c : Col)
    (h : df.getCol n = some c) (hc : coerceCol c = none) :
    coerceField df n msg = .error (.typeKind msg) := by
  simp [coerceField, h, isNumericCol_of_coerce_fail c hc, hc]

/-- All supplied columns exist and already hold numeric dtype. -/
def numericArg (df : DataFrame) (o : Option String) : Prop :=
  ∀ n, o = some n → ∃ c, df.getCol n = some c ∧ isNumericCol c = true

theorem coerceOpt_of_numeric (df : DataFrame) (o : Option String) (msg : String)
    (h : numericArg df o) : coerceOpt df o msg = .ok df := by
  cases o with
  | none => rfl
  | some n =>
      obtain ⟨c, hc, hn⟩ := h n rfl
      simp [coerceOpt, coerceField_of_numeric df n msg c hc hn]

theorem coerceAll_of_numeric (df : DataFrame) (estimate : String)
    (moerror ll hl : Option String) (ce : Col)
    (he : df.getCol estimate = some ce) (hne : isNumericCol ce = true)
    (hmo : numericArg df moerror) (hll : numericArg df ll) (hhl : numericArg df hl) :
    coerceAll df estimate moerror ll hl = .ok df := by
  unfold coerceAll
  rw [coerceField_of_numeric df estimate _ ce he hne]
  simp only [bindE]
  rw [coerceOpt_of_numeric df moerror _ hmo]
  simp only [bindE]
  rw [coerceOpt_of_numeric df ll _ hll]
  simp only [bindE]
  exact coerceOpt_of_numeric df hl _ hhl

theorem ciComplete_some (m : String) (ll hl : Option String) :
    ciComplete (some m) ll hl = .ok () := by
  cases ll <;> cases hl <;> simp [ciComplete, bindE]

theorem ciComplete_llhl (ll hl : String) :
    ciComplete none (some ll) (some hl) = .ok () := by
  simp [ciComplete, bindE]

theorem ciComplete_fail (ll hl : Option String) (h : ll = none ∨ hl = none) :
    ciComplete none ll hl =
      .error (.constraintKind
        "If \"moerror\" is not provided, then \"ll\" and \"hl\" must be provided.") := by
  cases ll with
  | none => cases hl <;> rfl
  | some l =>
      cases hl with
      | none => rfl
      | some h2 => rcases h with h | h <;> exact Option.noConfusion h

theorem numericArg_none (df : DataFrame) : numericArg df none := by
  intro n h
  exact Option.noConfusion h

theorem numericArg_some (df : DataFrame) (n : String) (c : Col)
    (h : df.getCol n = some c) (hn : isNumericCol c = true) :
    numericArg df (some n) := by
  intro n2 h2
  exact ⟨c, by rw [← Option.some.inj h2]; exact h, hn⟩

theorem deriveCI_modeA (df : DataFrame) (e m : String) (ce cm : Col)
    (he : df.getCol e = some ce) (hm : df.getCol m = some cm)
    (hll : df.getCol "ll" = none) :
    deriveCI df e (some m) none none =
      (df.setCol "ll" (subCol ce cm)).setCol "hl" (addCol ce cm) := by
  have hel : e ≠ "ll" := getCol_ne_none_of_getCol_some df e "ll" ce he hll
  have hml : m ≠ "ll" := getCol_ne_none_of_getCol_some df m "ll" cm hm hll
  unfold deriveCI
  simp only [DataFrame.getColD]
  rw [getCol_setCol_ne df "ll" e (subCol ((df.getCol e).getD []) ((df.getCol m).getD [])) hel,
    getCol_setCol_ne df "ll" m (subCol ((df.getCol e).getD []) ((df.getCol m).getD [])) hml,
    he, hm]
  simp

theorem deriveCI_modeB (df : DataFrame) (e l h : String) (ce cl : Col)
    (he : df.getCol e = some ce) (hl : df.getCol l = some cl) :
    deriveCI df e none (some l) (some h) = df.setCol "moerror" (subCol ce cl) := by
  unfold deriveCI
  simp only [DataFrame.getColD]
  rw [he, hl]
  simp

theorem deriveCI_all (df : DataFrame) (e m l h : String) :
    deriveCI df e (some m) (some l) (some h) = df := rfl

theorem check_data_eq_annTail (df df2 : DataFrame) (e v : String)
    (mo ll hl : Option String) (a ah r rh : Option (List String))
    (hco : coerceAll df e mo ll hl = .ok df2) (hci : ciComplete mo ll hl = .ok ()) :
    check_data df e v mo ll hl a ah r rh = annTail (deriveCI df2 e mo ll hl) v a ah r rh := by
  unfold check_data
  rw [hco]
  simp only [bindE]
  rw [hci]

theorem subCol_sub_cancel (a b : Col) (ha : isNumericCol a = true)
    (hb : isNumericCol b = true) (hlen : a.length = b.length) :
    subCol a (subCol a b) = b := by
  induction a generalizing b with
  | nil =>
      cases b with
      | nil => rfl
      | cons y ys => simp at hlen
  | cons x xs ih =>
      cases b with
      | nil => simp at hlen
      | cons y ys =>
          simp only [isNumericCol, List.all_cons, Bool.and_eq_true] at ha hb
          obtain ⟨hx, hxs⟩ := ha
          obtain ⟨hy, hys⟩ := hb
          cases x with
          | str s => simp at hx
          | num qx =>
              cases y with
              | str s => simp at hy
              | num qy =>
                  simp only [List.length_cons, Nat.succ.injEq] at hlen
                  simp only [subCol, List.zipWith] at *
                  have := ih ys (by simpa [isNumericCol] using hxs)
                    (by simpa [isNumericCol] using hys) hlen
                  simp only [subVal, this]
                  congr 1
                  simp [sub_sub_cancel]

/-! ### The claims -/

/-- Claim C1: on numeric tables, when `moerror` is omitted and `ll`, `hl`
are supplied, `check_data` succeeds, appends a new column `"moerror"`
equal elementwise to `estimate − ll`, and leaves `hl` unchanged; when
`ll`, `hl` are omitted and `moerror` is supplied, it succeeds and appends
new columns `"ll" = estimate − moerror` and `"hl" = estimate + moerror`. -/
theorem claim_C1 :
    (∀ (df : DataFrame) (e v l h : String) (ce cl ch : Col),
        df.getCol e = some ce → isNumericCol ce = true →
        df.getCol l = some cl → isNumericCol cl = true →
        df.getCol h = some ch → isNumericCol ch = true →
        df.getCol "moerror" = none →
        check_data df e v none (some l) (some h) none none none none =
          .ok (df.setCol "moerror" (subCol ce cl), []) ∧
        (df.setCol "moerror" (subCol ce cl)).getCol "moerror" = some (subCol ce cl) ∧
        (df.setCol "moerror" (subCol ce cl)).getCol h = some ch) ∧
    (∀ (df : DataFrame) (e v m : String) (ce cm : Col),
        df.getCol e = some ce → isNumericCol ce = true →
        df.getCol m = some cm → isNumericCol cm = true →
        df.getCol "ll" = none → df.getCol "hl" = none →
        check_data df e v (some m) none none none none none none =
          .ok ((df.setCol "ll" (subCol ce cm)).setCol "hl" (addCol ce cm), []) ∧
        ((df.setCol "ll" (subCol ce cm)).setCol "hl" (addCol ce cm)).getCol "ll" =
          some (subCol ce cm) ∧
        ((df.setCol "ll" (subCol ce cm)).setCol "hl" (addCol ce cm)).getCol "hl" =
          some (addCol ce cm)) := by
  constructor
  · intro df e v l h ce cl ch he hne hcl hnl hch hnh hmo
    refine ⟨?_, ?_, ?_⟩
    · unfold check_data
      rw [coerceAll_of_numeric df e none (some l) (some h) ce he hne
        (numericArg_none df) (numericArg_some df l cl hcl hnl)
        (numericArg_some df h ch hch hnh)]
      simp only [bindE]
      rw [ciComplete_llhl l h]
      simp only [bindE]
      rw [deriveCI_modeB df e l h ce cl he hcl]
      rfl
    · exact getCol_setCol_self df "moerror" (subCol ce cl)
    · rw [getCol_setCol_ne df "moerror" h (subCol ce cl)
        (getCol_ne_none_of_getCol_some df h "moerror" ch hch hmo)]
      exact hch
  · intro df e v m ce cm he hne hcm hnm hll hhl
    have hstep : deriveCI df e (some m) none none =
        (df.setCol "ll" (subCol ce cm)).setCol "hl" (addCol ce cm) :=
      deriveCI_modeA df e m ce cm he hcm hll
    refine ⟨?_, ?_, ?_⟩
    · unfold check_data
      rw [coerceAll_of_numeric df e (some m) none none ce he hne
        (numericArg_some df m cm hcm hnm) (numericArg_none df) (numericArg_none df)]
      simp only [bindE]
      rw [ciComplete_some m none none]
      simp only [bindE]
      rw [hstep]
      rfl
    · rw [getCol_setCol_ne _ "hl" "ll" (addCol ce cm) (by decide)]
      exact getCol_setCol_self df "ll" (subCol ce cm)
    · exact getCol_setCol_self _ "hl" (addCol ce cm)

/-- Witness for C1: both modes at concrete tables (`dfExB` for the
`ll`/`hl` mode, the spec's example `dfExA` for the `moerror` mode). -/
theorem claim_C1_witness :
    (check_data dfExB "est" "var" none (some "low") (some "high") none none none none =
        .ok (dfExB.setCol "moerror" (subCol [Val.num 1] [Val.num 0]), []) ∧
      (dfExB.setCol "moerror" (subCol [Val.num 1] [Val.num 0])).getCol "moerror" =
        some (subCol [Val.num 1] [Val.num 0]) ∧
      (dfExB.setCol "moerror" (subCol [Val.num 1] [Val.num 0])).getCol "high" =
        some [Val.num 5]) ∧
    (check_data dfExA "est" "var" (some "mo") none none none none none none =
        .ok ((dfExA.setCol "ll"
            (subCol [Val.num 12, Val.num 8] [Val.num 3, Val.num 2])).setCol
          "hl" (addCol [Val.num 12, Val.num 8] [Val.num 3, Val.num 2]), []) ∧
      ((dfExA.setCol "ll"
            (subCol [Val.num 12, Val.num 8] [Val.num 3, Val.num 2])).setCol
          "hl" (addCol [Val.num 12, Val.num 8] [Val.num 3, Val.num 2])).getCol
        "ll" = some (subCol [Val.num 12, Val.num 8] [Val.num 3, Val.num 2]) ∧
      ((dfExA.setCol "ll"
            (subCol [Val.num 12, Val.num 8] [Val.num 3, Val.num 2])).setCol
          "hl" (addCol [Val.num 12, Val.num 8] [Val.num 3, Val.num 2])).getCol
        "hl" = some (addCol [Val.num 12, Val.num 8] [Val.num 3, Val.num 2])) :=
  ⟨claim_C1.1 dfExB "est" "var" "low" "high" [Val.num 1] [Val.num 0] [Val.num 5]
      (by decide) (by decide) (by decide) (by decide) (by decide) (by decide) (by decide),
    claim_C1.2 dfExA "est" "var" "mo" [Val.num 12, Val.num 8]
      [Val.num 3, Val.num 2]
      (by decide) (by decide) (by decide) (by decide) (by decide) (by decide)⟩

/-- Claim C7: on success the returned table is the input table with at
most the columns `"moerror"`, `"ll"`, `"hl"` appended (each only when the
corresponding argument was absent) and every other column unchanged (here
stated for already-numeric columns, so step 1 coerces nothing); when
`moerror`, `ll` and `hl` are all supplied, nothing is added or derived. -/
theorem claim_C7 :
    (∀ (df : DataFrame) (e v m : String) (ce cm : Col),
        df.getCol e = some ce → isNumericCol ce = true →
        df.getCol m = some cm → isNumericCol cm = true →
        df.getCol "ll" = none → df.getCol "hl" = none →
        check_data df e v (some m) none none none none none none =
          .ok (⟨df.cols ++ [("ll", subCol ce cm), ("hl", addCol ce cm)]⟩, [])) ∧
    (∀ (df : DataFrame) (e v l h : String) (ce cl ch : Col),
        df.getCol e = some ce → isNumericCol ce = true →
        df.getCol l = some cl → isNumericCol cl = true →
        df.getCol h = some ch → isNumericCol ch = true →
        df.getCol "moerror" = none →
        check_data df e v none (some l) (some h) none none none none =
          .ok (⟨df.cols ++ [("moerror", subCol ce cl)]⟩, [])) ∧
    (∀ (df : DataFrame) (e v m l h : String) (ce cm cl ch : Col),
        df.getCol e = some ce → isNumericCol ce = true →
        df.getCol m = some cm → isNumericCol cm = true →
        df.getCol l = some cl → isNumericCol cl = true →
        df.getCol h = some ch → isNumericCol ch = true →
        check_data df e v (some m) (some l) (some h) none none none none = .ok (df, [])) := by
  refine ⟨?_, ?_, ?_⟩
  · intro df e v m ce cm he hne hcm hnm hll hhl
    rw [check_data_eq_annTail df df e v (some m) none none none none none none
      (coerceAll_of_numeric df e (some m) none none ce he hne
        (numericArg_some df m cm hcm hnm) (numericArg_none df) (numericArg_none df))
      (ciComplete_some m none none),
      deriveCI_modeA df e m ce cm he hcm hll]
    have h2 : (df.setCol "ll" (subCol ce cm)).getCol "hl" = none := by
      rw [getCol_setCol_ne df "ll" "hl" (subCol ce cm) (by decide)]
      exact hhl
    have hdf : (df.setCol "ll" (subCol ce cm)).setCol "hl" (addCol ce cm) =
        (⟨df.cols ++ [("ll", subCol ce cm), ("hl", addCol ce cm)]⟩ : DataFrame) := by
      apply DataFrame.eq_of_cols
      rw [setCol_absent _ "hl" (addCol ce cm) h2, setCol_absent df "ll" (subCol ce cm) hll]
      simp
    rw [hdf]
    rfl
  · intro df e v l h ce cl ch he hne hcl hnl hch hnh hmo
    rw [check_data_eq_annTail df df e v none (some l) (some h) none none none none
      (coerceAll_of_numeric df e none (some l) (some h) ce he hne
        (numericArg_none df) (numericArg_some df l cl hcl hnl)
        (numericArg_some df h ch hch hnh))
      (ciComplete_llhl l h),
      deriveCI_modeB df e l h ce cl he hcl]
    have hdf : df.setCol "moerror" (subCol ce cl) =
        (⟨df.cols ++ [("moerror", subCol ce cl)]⟩ : DataFrame) := by
      apply DataFrame.eq_of_cols
      exact setCol_absent df "moerror" (subCol ce cl) hmo
    rw [hdf]
    rfl
  · intro df e v m l h ce cm cl ch he hne hcm hnm hcl hnl hch hnh
    rw [check_data_eq_annTail df df e v (some m) (some l) (some h) none none none none
      (coerceAll_of_numeric df e (some m) (some l) (some h) ce he hne
        (numericArg_some df m cm hcm hnm) (numericArg_some df l cl hcl hnl)
        (numericArg_some df h ch hch hnh))
      (ciComplete_some m (some l) (some h))]
    rfl

/-- Witness for C7: the three modes at concrete numeric tables. -/
theorem claim_C7_witness :
    check_data dfExA "est" "var" (some "mo") none none none none none none =
      .ok (⟨dfExA.cols ++ [("ll", subCol [Val.num 12, Val.num 8] [Val.num 3, Val.num 2]),
        ("hl", addCol [Val.num 12, Val.num 8] [Val.num 3, Val.num 2])]⟩, []) ∧
    check_data dfExB "est" "var" none (some "low") (some "high") none none none none =
      .ok (⟨dfExB.cols ++ [("moerror", subCol [Val.num 1] [Val.num 0])]⟩, []) ∧
    check_data dfExC "est" "var" (some "mo") (some "low") (some "high") none none none none =
      .ok (dfExC, []) :=
  ⟨claim_C7.1 dfExA "est" "var" "mo" [Val.num 12, Val.num 8] [Val.num 3, Val.num 2]
      (by decide) (by decide) (by decide) (by decide) (by decide) (by decide),
    claim_C7.2.1 dfExB "est" "var" "low" "high" [Val.num 1] [Val.num 0] [Val.num 5]
      (by decide) (by decide) (by decide) (by decide) (by decide) (by decide) (by decide),
    claim_C7.2.2 dfExC "est" "var" "mo" "low" "high"
      [Val.num 1] [Val.num 2] [Val.num 0] [Val.num 5]
      (by decide) (by decide) (by decide) (by decide) (by decide) (by decide)
      (by decide) (by decide)⟩

/-- Counterexample to C2: in `ll`/`hl` mode the upper limit is taken from
the caller unchecked, so `hl = estimate + moerror` fails after a
successful validation: on `dfExB` (`est=[1]`, `low=[0]`, `high=[5]`) the
derived margin of error is `est − low = [1]`, but `est + moerror = [2]`
while the upper-limit column holds `[5]`. -/
theorem claim_C2_cex :
    check_data dfExB "est" "var" none (some "low") (some "high") none none none none =
      .ok (dfExB.setCol "moerror" (subCol [Val.num 1] [Val.num 0]), []) ∧
    (dfExB.setCol "moerror" (subCol [Val.num 1] [Val.num 0])).getCol "est" =
      some [Val.num 1] ∧
    (dfExB.setCol "moerror" (subCol [Val.num 1] [Val.num 0])).getCol "moerror" =
      some (subCol [Val.num 1] [Val.num 0]) ∧
    (dfExB.setCol "moerror" (subCol [Val.num 1] [Val.num 0])).getCol "high" =
      some [Val.num 5] ∧
    addCol [Val.num 1] (subCol [Val.num 1] [Val.num 0]) ≠ [Val.num 5] := by
  refine ⟨?_, ?_, ?_, ?_, ?_⟩
  · rw [check_data_eq_annTail dfExB dfExB "est" "var" none (some "low") (some "high")
      none none none none
      (coerceAll_of_numeric dfExB "est" none (some "low") (some "high") [Val.num 1]
        (by decide) (by decide) (numericArg_none dfExB)
        (numericArg_some dfExB "low" [Val.num 0] (by decide) (by decide))
        (numericArg_some dfExB "high" [Val.num 5] (by decide) (by decide)))
      (ciComplete_llhl "low" "high"),
      deriveCI_modeB dfExB "est" "low" "high" [Val.num 1] [Val.num 0]
        (by decide) (by decide)]
    rfl
  · rw [getCol_setCol_ne dfExB "moerror" "est" (subCol [Val.num 1] [Val.num 0]) (by decide)]
    decide
  · exact getCol_setCol_self dfExB "moerror" (subCol [Val.num 1] [Val.num 0])
  · rw [getCol_setCol_ne dfExB "moerror" "high" (subCol [Val.num 1] [Val.num 0]) (by decide)]
    decide
  · intro hcontra
    simp only [subCol, addCol, List.zipWith, subVal, addVal, List.cons.injEq, and_true,
      Val.num.injEq] at hcontra
    norm_num at hcontra

/-- Claim C2 as amended: after a successful `moerror`-mode validation,
all three relations hold columnwise (`ll = est − mo`, `hl = est + mo`,
`mo = est − ll`); after a successful `ll`/`hl`-mode validation, the
derived `moerror` column equals `est − ll` and `ll = est − moerror`
holds, but `hl = est + moerror` is not guaranteed (see the
counterexample), and nothing is checked when all three are supplied. -/
theorem claim_C2_amended :
    (∀ (df : DataFrame) (e v m : String) (ce cm : Col),
        df.getCol e = some ce → isNumericCol ce = true →
        df.getCol m = some cm → isNumericCol cm = true →
        df.getCol "ll" = none → df.getCol "hl" = none →
        ce.length = cm.length →
        check_data df e v (some m) none none none none none none =
          .ok ((df.setCol "ll" (subCol ce cm)).setCol "hl" (addCol ce cm), []) ∧
        ((df.setCol "ll" (subCol ce cm)).setCol "hl" (addCol ce cm)).getCol "ll" =
          some (subCol ce cm) ∧
        ((df.setCol "ll" (subCol ce cm)).setCol "hl" (addCol ce cm)).getCol "hl" =
          some (addCol ce cm) ∧
        ((df.setCol "ll" (subCol ce cm)).setCol "hl" (addCol ce cm)).getCol e = some ce ∧
        ((df.setCol "ll" (subCol ce cm)).setCol "hl" (addCol ce cm)).getCol m = some cm ∧
        subCol ce (subCol ce cm) = cm) ∧
    (∀ (df : DataFrame) (e v l h : String) (ce cl ch : Col),
        df.getCol e = some ce → isNumericCol ce = true →
        df.getCol l = some cl → isNumericCol cl = true →
        df.getCol h = some ch → isNumericCol ch = true →
        df.getCol "moerror" = none →
        ce.length = cl.length →
        check_data df e v none (some l) (some h) none none none none =
          .ok (df.setCol "moerror" (subCol ce cl), []) ∧
        (df.setCol "moerror" (subCol ce cl)).getCol "moerror" = some (subCol ce cl) ∧
        (df.setCol "moerror" (subCol ce cl)).getCol l = some cl ∧
        (df.setCol "moerror" (subCol ce cl)).getCol e = some ce ∧
        subCol ce (subCol ce cl) = cl) := by
  constructor
  · intro df e v m ce cm he hne hcm hnm hll hhl hlen
    have hstep : deriveCI df e (some m) none none =
        (df.setCol "ll" (subCol ce cm)).setCol "hl" (addCol ce cm) :=
      deriveCI_modeA df e m ce cm he hcm hll
    have hel : e ≠ "ll" := getCol_ne_none_of_getCol_some df e "ll" ce he hll
    have heh : e ≠ "hl" := getCol_ne_none_of_getCol_some df e "hl" ce he hhl
    have hml : m ≠ "ll" := getCol_ne_none_of_getCol_some df m "ll" cm hcm hll
    have hmh : m ≠ "hl" := getCol_ne_none_of_getCol_some df m "hl" cm hcm hhl
    refine ⟨?_, ?_, ?_, ?_, ?_, ?_⟩
    · rw [check_data_eq_annTail df df e v (some m) none none none none none none
        (coerceAll_of_numeric df e (some m) none none ce he hne
          (numericArg_some df m cm hcm hnm) (numericArg_none df) (numericArg_none df))
        (ciComplete_some m none none), hstep]
      rfl
    · rw [getCol_setCol_ne _ "hl" "ll" (addCol ce cm) (by decide)]
      exact getCol_setCol_self df "ll" (subCol ce cm)
    · exact getCol_setCol_self _ "hl" (addCol ce cm)
    · rw [getCol_setCol_ne _ "hl" e (addCol ce cm) heh,
        getCol_setCol_ne df "ll" e (subCol ce cm) hel]
      exact he
    · rw [getCol_setCol_ne _ "hl" m (addCol ce cm) hmh,
        getCol_setCol_ne df "ll" m (subCol ce cm) hml]
      exact hcm
    · exact subCol_sub_cancel ce cm hne hnm hlen
  · intro df e v l h ce cl ch he hne hcl hnl hch hnh hmo hlen
    have hel : e ≠ "moerror" := getCol_ne_none_of_getCol_some df e "moerror" ce he hmo
    have hlm : l ≠ "moerror" := getCol_ne_none_of_getCol_some df l "moerror" cl hcl hmo
    refine ⟨?_, ?_, ?_, ?_, ?_⟩
    · rw [check_data_eq_annTail df df e v none (some l) (some h) none none none none
        (coerceAll_of_numeric df e none (some l) (some h) ce he hne
          (numericArg_none df) (numericArg_some df l cl hcl hnl)
          (numericArg_some df h ch hch hnh))
        (ciComplete_llhl l h),
        deriveCI_modeB df e l h ce cl he hcl]
      rfl
    · exact getCol_setCol_self df "moerror" (subCol ce cl)
    · rw [getCol_setCol_ne df "moerror" l (subCol ce cl) hlm]
      exact hcl
    · rw [getCol_setCol_ne df "moerror" e (subCol ce cl) hel]
      exact he
    · exact subCol_sub_cancel ce cl hne hnl hlen

/-- Witness for the amended C2 at the concrete tables `dfExA` and `dfExB`. -/
theorem claim_C2_amended_witness :
    (check_data dfExA "est" "var" (some "mo") none none none none none none =
        .ok ((dfExA.setCol "ll" (subCol [Val.num 12, Val.num 8] [Val.num 3, Val.num 2])).setCol
          "hl" (addCol [Val.num 12, Val.num 8] [Val.num 3, Val.num 2]), []) ∧
      ((dfExA.setCol "ll" (subCol [Val.num 12, Val.num 8] [Val.num 3, Val.num 2])).setCol
          "hl" (addCol [Val.num 12, Val.num 8] [Val.num 3, Val.num 2])).getCol "ll" =
        some (subCol [Val.num 12, Val.num 8] [Val.num 3, Val.num 2]) ∧
      ((dfExA.setCol "ll" (subCol [Val.num 12, Val.num 8] [Val.num 3, Val.num 2])).setCol
          "hl" (addCol [Val.num 12, Val.num 8] [Val.num 3, Val.num 2])).getCol "hl" =
        some (addCol [Val.num 12, Val.num 8] [Val.num 3, Val.num 2]) ∧
      ((dfExA.setCol "ll" (subCol [Val.num 12, Val.num 8] [Val.num 3, Val.num 2])).setCol
          "hl" (addCol [Val.num 12, Val.num 8] [Val.num 3, Val.num 2])).getCol "est" =
        some [Val.num 12, Val.num 8] ∧
      ((dfExA.setCol "ll" (subCol [Val.num 12, Val.num 8] [Val.num 3, Val.num 2])).setCol
          "hl" (addCol [Val.num 12, Val.num 8] [Val.num 3, Val.num 2])).getCol "mo" =
        some [Val.num 3, Val.num 2] ∧
      subCol [Val.num 12, Val.num 8] (subCol [Val.num 12, Val.num 8] [Val.num 3, Val.num 2]) =
        [Val.num 3, Val.num 2]) ∧
    (check_data dfExB "est" "var" none (some "low") (some "high") none none none none =
        .ok (dfExB.setCol "moerror" (subCol [Val.num 1] [Val.num 0]), []) ∧
      (dfExB.setCol "moerror" (subCol [Val.num 1] [Val.num 0])).getCol "moerror" =
        some (subCol [Val.num 1] [Val.num 0]) ∧
      (dfExB.setCol "moerror" (subCol [Val.num 1] [Val.num 0])).getCol "low" =
        some [Val.num 0] ∧
      (dfExB.setCol "moerror" (subCol [Val.num 1] [Val.num 0])).getCol "est" =
        some [Val.num 1] ∧
      subCol [Val.num 1] (subCol [Val.num 1] [Val.num 0]) = [Val.num 0]) :=
  ⟨claim_C2_amended.1 dfExA "est" "var" "mo" [Val.num 12, Val.num 8] [Val.num 3, Val.num 2]
      (by decide) (by decide) (by decide) (by decide) (by decide) (by decide) (by decide),
    claim_C2_amended.2 dfExB "est" "var" "low" "high" [Val.num 1] [Val.num 0] [Val.num 5]
      (by decide) (by decide) (by decide) (by decide) (by decide) (by decide) (by decide)
      (by decide)⟩

/-- Claim C3: when `moerror` is absent and `ll` or `hl` is absent, the
call fails with the `AssertionError` message naming `moerror`; and with
numeric columns supplied and no annotations, the call succeeds exactly
when `moerror` is supplied or both `ll` and `hl` are supplied (so
`moerror` alone succeeds; `ll` alone or `hl` alone fails with that
constraint error). -/
theorem claim_C3 :
    (∀ (df : DataFrame) (e v : String) (ll hl : Option String) (ce : Col),
        df.getCol e = some ce → isNumericCol ce = true →
        numericArg df ll → numericArg df hl →
        ll = none ∨ hl = none →
        check_data df e v none ll hl none none none none =
          .error (.constraintKind
            "If \"moerror\" is not provided, then \"ll\" and \"hl\" must be provided.")) ∧
    (∀ (df : DataFrame) (e v : String) (mo ll hl : Option String) (ce : Col),
        df.getCol e = some ce → isNumericCol ce = true →
        numericArg df mo → numericArg df ll → numericArg df hl →
        isOk (check_data df e v mo ll hl none none none none) =
          (mo.isSome || (ll.isSome && hl.isSome))) := by
  constructor
  · intro df e v ll hl ce he hne hll hhl hor
    unfold check_data
    rw [coerceAll_of_numeric df e none ll hl ce he hne (numericArg_none df) hll hhl]
    simp only [bindE]
    rw [ciComplete_fail ll hl hor]
  · intro df e v mo ll hl ce he hne hmo hll hhl
    cases mo with
    | some m =>
        rw [check_data_eq_annTail df df e v (some m) ll hl none none none none
          (coerceAll_of_numeric df e (some m) ll hl ce he hne hmo hll hhl)
          (ciComplete_some m ll hl)]
        rfl
    | none =>
        cases ll with
        | some l =>
            cases hl with
            | some h2 =>
                rw [check_data_eq_annTail df df e v none (some l) (some h2) none none none none
                  (coerceAll_of_numeric df e none (some l) (some h2) ce he hne
                    (numericArg_none df) hll hhl)
                  (ciComplete_llhl l h2)]
                rfl
            | none =>
                unfold check_data
                rw [coerceAll_of_numeric df e none (some l) none ce he hne
                  (numericArg_none df) hll hhl]
                simp only [bindE]
                rw [ciComplete_fail (some l) none (Or.inr rfl)]
                rfl
        | none =>
            unfold check_data
            rw [coerceAll_of_numeric df e none none hl ce he hne
              (numericArg_none df) hll hhl]
            simp only [bindE]
            rw [ciComplete_fail none hl (Or.inl rfl)]
            rfl

/-- Witness for C3: only-`ll` fails with the `moerror` message; only-`hl`
fails the same way; only-`moerror` succeeds; the completeness check also
rejects the nothing-supplied call. -/
theorem claim_C3_witness :
    check_data dfExA "est" "var" none (some "mo") none none none none none =
      .error (.constraintKind
        "If \"moerror\" is not provided, then \"ll\" and \"hl\" must be provided.") ∧
    check_data dfExA "est" "var" none none (some "mo") none none none none =
      .error (.constraintKind
        "If \"moerror\" is not provided, then \"ll\" and \"hl\" must be provided.") ∧
    isOk (check_data dfExA "est" "var" (some "mo") none none none none none none) = true ∧
    isOk (check_data dfExA "est" "var" none none none none none none none) = false :=
  ⟨claim_C3.1 dfExA "est" "var" (some "mo") none [Val.num 12, Val.num 8]
      (by decide) (by decide)
      (numericArg_some dfExA "mo" [Val.num 3, Val.num 2] (by decide) (by decide))
      (numericArg_none dfExA) (Or.inr rfl),
    claim_C3.1 dfExA "est" "var" none (some "mo") [Val.num 12, Val.num 8]
      (by decide) (by decide) (numericArg_none dfExA)
      (numericArg_some dfExA "mo" [Val.num 3, Val.num 2] (by decide) (by decide))
      (Or.inl rfl),
    claim_C3.2 dfExA "est" "var" (some "mo") none none [Val.num 12, Val.num 8]
      (by decide) (by decide)
      (numericArg_some dfExA "mo" [Val.num 3, Val.num 2] (by decide) (by decide))
      (numericArg_none dfExA) (numericArg_none dfExA),
    claim_C3.2 dfExA "est" "var" none none none [Val.num 12, Val.num 8]
      (by decide) (by decide) (numericArg_none dfExA) (numericArg_none dfExA)
      (numericArg_none dfExA)⟩

/-- Claim C10: `check_data` never checks that the `estimate`, `moerror`,
`ll`, `hl` arguments name existing columns; a missing name surfaces as a
raw `KeyError` from the numeric-coercion step, before any documented
check runs (in particular the error is raised for any CI-mode argument
combination), and that error is neither a `TypeError` nor an
`AssertionError` of the contract. -/
theorem claim_C10 :
    (∀ (df : DataFrame) (e v : String) (mo ll hl : Option String)
        (a ah r rh : Option (List String)),
        df.getCol e = none →
        check_data df e v mo ll hl a ah r rh = .error (.keyError e)) ∧
    (∀ (df : DataFrame) (e v m : String) (ll hl : Option String)
        (a ah r rh : Option (List String)) (ce : Col),
        df.getCol e = some ce → isNumericCol ce = true →
        df.getCol m = none →
        check_data df e v (some m) ll hl a ah r rh = .error (.keyError m)) ∧
    (∀ (df : DataFrame) (e v l : String) (hl : Option String)
        (a ah r rh : Option (List String)) (ce : Col),
        df.getCol e = some ce → isNumericCol ce = true →
        df.getCol l = none →
        check_data df e v none (some l) hl a ah r rh = .error (.keyError l)) ∧
    (∀ (df : DataFrame) (e v l h : String)
        (a ah r rh : Option (List String)) (ce cl : Col),
        df.getCol e = some ce → isNumericCol ce = true →
        df.getCol l = some cl → isNumericCol cl = true →
        df.getCol h = none →
        check_data df e v none (some l) (some h) a ah r rh = .error (.keyError h)) ∧
    (∀ s m1 m2 : String, Err.keyError s ≠ Err.typeKind m1 ∧
        Err.keyError s ≠ Err.constraintKind m2) := by
  refine ⟨?_, ?_, ?_, ?_, ?_⟩
  · intro df e v mo ll hl a ah r rh he
    unfold check_data coerceAll
    rw [coerceField_missing df e _ he]
    rfl
  · intro df e v m ll hl a ah r rh ce he hne hm
    unfold check_data coerceAll
    rw [coerceField_of_numeric df e _ ce he hne]
    simp only [bindE, coerceOpt]
    rw [coerceField_missing df m _ hm]
  · intro df e v l hl a ah r rh ce he hne hl2
    unfold check_data coerceAll
    rw [coerceField_of_numeric df e _ ce he hne]
    simp only [bindE, coerceOpt]
    rw [coerceField_missing df l _ hl2]
  · intro df e v l h a ah r rh ce cl he hne hcl hnl hh
    unfold check_data coerceAll
    rw [coerceField_of_numeric df e _ ce he hne]
    simp only [bindE, coerceOpt]
    rw [coerceField_of_numeric df l _ cl hcl hnl]
    simp only [bindE]
    rw [coerceField_missing df h _ hh]
  · intro s m1 m2
    exact ⟨fun h => Err.noConfusion h, fun h => Err.noConfusion h⟩

/-- Witness for C10: missing `estimate`, `moerror`, `ll` and `hl` column
names each produce the raw key error on `dfExA`, even when the CI-mode
arguments are otherwise incomplete, and that error is a distinct kind. -/
theorem claim_C10_witness :
    check_data dfExA "missing" "var" none none none none none none none =
      .error (.keyError "missing") ∧
    check_data dfExA "est" "var" (some "nope") none none none none none none =
      .error (.keyError "nope") ∧
    check_data dfExA "est" "var" none (some "nope") none none none none none =
      .error (.keyError "nope") ∧
    check_data dfExA "est" "var" none (some "mo") (some "nope") none none none none =
      .error (.keyError "nope") ∧
    (Err.keyError "missing" ≠ Err.typeKind "Estimates should be float or int" ∧
      Err.keyError "missing" ≠ Err.constraintKind
        "If \"moerror\" is not provided, then \"ll\" and \"hl\" must be provided.") :=
  ⟨claim_C10.1 dfExA "missing" "var" none none none none none none none (by decide),
    claim_C10.2.1 dfExA "est" "var" "nope" none none none none none none
      [Val.num 12, Val.num 8] (by decide) (by decide) (by decide),
    claim_C10.2.2.1 dfExA "est" "var" "nope" none none none none none
      [Val.num 12, Val.num 8] (by decide) (by decide) (by decide),
    claim_C10.2.2.2.1 dfExA "est" "var" "mo" "nope" none none none none
      [Val.num 12, Val.num 8] [Val.num 3, Val.num 2]
      (by decide) (by decide) (by decide) (by decide) (by decide),
    claim_C10.2.2.2.2 "missing" "Estimates should be float or int"
      "If \"moerror\" is not provided, then \"ll\" and \"hl\" must be provided."⟩

/-- Claim C4: each supplied non-numeric column whose values all coerce is
replaced by its float coercion (stated for both CI modes, covering all
four fields), and a supplied column with a non-coercible value makes the
call fail with the `TypeError` naming that field (estimate /
margin-of-error / lower-limit / upper-limit), checked in source order. -/
theorem claim_C4 :
    (∀ (df : DataFrame) (e v m : String) (ce ce2 cm cm2 : Col),
        e ≠ m →
        df.getCol e = some ce → coerceCol ce = some ce2 →
        df.getCol m = some cm → coerceCol cm = some cm2 →
        df.getCol "ll" = none → df.getCol "hl" = none →
        check_data df e v (some m) none none none none none none =
          .ok ((((df.setCol e ce2).setCol m cm2).setCol "ll"
            (subCol ce2 cm2)).setCol "hl" (addCol ce2 cm2), []) ∧
        ((((df.setCol e ce2).setCol m cm2).setCol "ll"
            (subCol ce2 cm2)).setCol "hl" (addCol ce2 cm2)).getCol e = some ce2 ∧
        ((((df.setCol e ce2).setCol m cm2).setCol "ll"
            (subCol ce2 cm2)).setCol "hl" (addCol ce2 cm2)).getCol m = some cm2 ∧
        isNumericCol ce2 = true ∧ isNumericCol cm2 = true) ∧
    (∀ (df : DataFrame) (e v l h : String) (ce ce2 cl cl2 ch ch2 : Col),
        e ≠ l → e ≠ h → l ≠ h →
        df.getCol e = some ce → coerceCol ce = some ce2 →
        df.getCol l = some cl → coerceCol cl = some cl2 →
        df.getCol h = some ch → coerceCol ch = some ch2 →
        df.getCol "moerror" = none →
        check_data df e v none (some l) (some h) none none none none =
          .ok ((((df.setCol e ce2).setCol l cl2).setCol h ch2).setCol "moerror"
            (subCol ce2 cl2), []) ∧
        ((((df.setCol e ce2).setCol l cl2).setCol h ch2).setCol "moerror"
          (subCol ce2 cl2)).getCol l = some cl2 ∧
        ((((df.setCol e ce2).setCol l cl2).setCol h ch2).setCol "moerror"
          (subCol ce2 cl2)).getCol h = some ch2 ∧
        isNumericCol cl2 = true ∧ isNumericCol ch2 = true) ∧
    (∀ (df : DataFrame) (e v : String) (mo ll hl : Option String)
        (a ah r rh : Option (List String)) (ce : Col),
        df.getCol e = some ce → coerceCol ce = none →
        check_data df e v mo ll hl a ah r rh =
          .error (.typeKind "Estimates should be float or int")) ∧
    (∀ (df : DataFrame) (e v m : String) (ll hl : Option String)
        (a ah r rh : Option (List String)) (ce cm : Col),
        df.getCol e = some ce → isNumericCol ce = true →
        df.getCol m = some cm → coerceCol cm = none →
        check_data df e v (some m) ll hl a ah r rh =
          .error (.typeKind "Margin of error values should be float or int")) ∧
    (∀ (df : DataFrame) (e v l : String) (hl : Option String)
        (a ah r rh : Option (List String)) (ce cl : Col),
        df.getCol e = some ce → isNumericCol ce = true →
        df.getCol l = some cl → coerceCol cl = none →
        check_data df e v none (some l) hl a ah r rh =
          .error (.typeKind "CI lowerlimit values should be float or int")) ∧
    (∀ (df : DataFrame) (e v l h : String)
        (a ah r rh : Option (List String)) (ce cl ch : Col),
        df.getCol e = some ce → isNumericCol ce = true →
        df.getCol l = some cl → isNumericCol cl = true →
        df.getCol h = some ch → coerceCol ch = none →
        check_data df e v none (some l) (some h) a ah r rh =
          .error (.typeKind "CI higherlimit values should be float or int")) := by
  refine ⟨?_, ?_, ?_, ?_, ?_, ?_⟩
  · intro df e v m ce ce2 cm cm2 hem he hce hm hcm hll hhl
    have hgm : (df.setCol e ce2).getCol m = some cm := by
      rw [getCol_setCol_ne df e m ce2 (Ne.symm hem)]
      exact hm
    have hco : coerceAll df e (some m) none none =
        .ok ((df.setCol e ce2).setCol m cm2) := by
      unfold coerceAll
      rw [coerceField_ok df e _ ce ce2 he hce]
      simp only [bindE, coerceOpt]
      rw [coerceField_ok _ m _ cm cm2 hgm hcm]
    have hel : e ≠ "ll" := getCol_ne_none_of_getCol_some df e "ll" ce he hll
    have heh : e ≠ "hl" := getCol_ne_none_of_getCol_some df e "hl" ce he hhl
    have hml : m ≠ "ll" := getCol_ne_none_of_getCol_some df m "ll" cm hm hll
    have hmh : m ≠ "hl" := getCol_ne_none_of_getCol_some df m "hl" cm hm hhl
    have hge : ((df.setCol e ce2).setCol m cm2).getCol e = some ce2 := by
      rw [getCol_setCol_ne _ m e cm2 hem]
      exact getCol_setCol_self df e ce2
    have hgm2 : ((df.setCol e ce2).setCol m cm2).getCol m = some cm2 :=
      getCol_setCol_self _ m cm2
    have hgll : ((df.setCol e ce2).setCol m cm2).getCol "ll" = none := by
      rw [getCol_setCol_ne _ m "ll" cm2 (Ne.symm hml),
        getCol_setCol_ne df e "ll" ce2 (Ne.symm hel)]
      exact hll
    refine ⟨?_, ?_, ?_, coerceCol_isNumeric ce ce2 hce, coerceCol_isNumeric cm cm2 hcm⟩
    · rw [check_data_eq_annTail df ((df.setCol e ce2).setCol m cm2) e v (some m)
        none none none none none none hco (ciComplete_some m none none),
        deriveCI_modeA _ e m ce2 cm2 hge hgm2 hgll]
      rfl
    · rw [getCol_setCol_ne _ "hl" e (addCol ce2 cm2) heh,
        getCol_setCol_ne _ "ll" e (subCol ce2 cm2) hel]
      exact hge
    · rw [getCol_setCol_ne _ "hl" m (addCol ce2 cm2) hmh,
        getCol_setCol_ne _ "ll" m (subCol ce2 cm2) hml]
      exact hgm2
  · intro df e v l h ce ce2 cl cl2 ch ch2 hel heh hlh he hce hcl hccl hch hcch hmo
    have hgl : (df.setCol e ce2).getCol l = some cl := by
      rw [getCol_setCol_ne df e l ce2 (Ne.symm hel)]
      exact hcl
    have hgh : ((df.setCol e ce2).setCol l cl2).getCol h = some ch := by
      rw [getCol_setCol_ne _ l h cl2 (Ne.symm hlh),
        getCol_setCol_ne df e h ce2 (Ne.symm heh)]
      exact hch
    have hco : coerceAll df e none (some l) (some h) =
        .ok (((df.setCol e ce2).setCol l cl2).setCol h ch2) := by
      unfold coerceAll
      rw [coerceField_ok df e _ ce ce2 he hce]
      simp only [bindE, coerceOpt]
      rw [coerceField_ok _ l _ cl cl2 hgl hccl]
      simp only [bindE]
      rw [coerceField_ok _ h _ ch ch2 hgh hcch]
    have hem : e ≠ "moerror" := getCol_ne_none_of_getCol_some df e "moerror" ce he hmo
    have hlm : l ≠ "moerror" := getCol_ne_none_of_getCol_some df l "moerror" cl hcl hmo
    have hhm : h ≠ "moerror" := getCol_ne_none_of_getCol_some df h "moerror" ch hch hmo
    have hge : (((df.setCol e ce2).setCol l cl2).setCol h ch2).getCol e = some ce2 := by
      rw [getCol_setCol_ne _ h e ch2 heh, getCol_setCol_ne _ l e cl2 hel]
      exact getCol_setCol_self df e ce2
    have hgl2 : (((df.setCol e ce2).setCol l cl2).setCol h ch2).getCol l = some cl2 := by
      rw [getCol_setCol_ne _ h l ch2 hlh]
      exact getCol_setCol_self _ l cl2
    have hgh2 : (((df.setCol e ce2).setCol l cl2).setCol h ch2).getCol h = some ch2 :=
      getCol_setCol_self _ h ch2
    refine ⟨?_, ?_, ?_, coerceCol_isNumeric cl cl2 hccl, coerceCol_isNumeric ch ch2 hcch⟩
    · rw [check_data_eq_annTail df (((df.setCol e ce2).setCol l cl2).setCol h ch2) e v
        none (some l) (some h) none none none none hco (ciComplete_llhl l h),
        deriveCI_modeB _ e l h ce2 cl2 hge hgl2]
      rfl
    · rw [getCol_setCol_ne _ "moerror" l (subCol ce2 cl2) hlm]
      exact hgl2
    · rw [getCol_setCol_ne _ "moerror" h (subCol ce2 cl2) hhm]
      exact hgh2
  · intro df e v mo ll hl a ah r rh ce he hce
    unfold check_data coerceAll
    rw [coerceField_fail df e _ ce he hce]
    rfl
  · intro df e v m ll hl a ah r rh ce cm he hne hm hcm
    unfold check_data coerceAll
    rw [coerceField_of_numeric df e _ ce he hne]
    simp only [bindE, coerceOpt]
    rw [coerceField_fail df m _ cm hm hcm]
  · intro df e v l hl a ah r rh ce cl he hne hl2 hcl
    unfold check_data coerceAll
    rw [coerceField_of_numeric df e _ ce he hne]
    simp only [bindE, coerceOpt]
    rw [coerceField_fail df l _ cl hl2 hcl]
  · intro df e v l h a ah r rh ce cl ch he hne hcl hnl hh hch
    unfold check_data coerceAll
    rw [coerceField_of_numeric df e _ ce he hne]
    simp only [bindE, coerceOpt]
    rw [coerceField_of_numeric df l _ cl hcl hnl]
    simp only [bindE]
    rw [coerceField_fail df h _ ch hh hch]

/-- Witness for C4: string columns `"3"`, `"4"`, `"1"`, `"5"` coerce in
both CI modes, and the non-coercible column `"abc"` triggers each of the
four field-specific type errors. -/
theorem claim_C4_witness :
    check_data dfExS "est" "var" (some "mo") none none none none none none =
      .ok ((((dfExS.setCol "est" [Val.num 3]).setCol "mo" [Val.num 4]).setCol "ll"
        (subCol [Val.num 3] [Val.num 4])).setCol "hl" (addCol [Val.num 3] [Val.num 4]), []) ∧
    check_data dfExS "est" "var" none (some "low") (some "high") none none none none =
      .ok ((((dfExS.setCol "est" [Val.num 3]).setCol "low" [Val.num 1]).setCol "high"
        [Val.num 5]).setCol "moerror" (subCol [Val.num 3] [Val.num 1]), []) ∧
    check_data dfExT "bad" "var" (some "est") none none none none none none =
      .error (.typeKind "Estimates should be float or int") ∧
    check_data dfExT "est" "var" (some "bad") none none none none none none =
      .error (.typeKind "Margin of error values should be float or int") ∧
    check_data dfExT "est" "var" none (some "bad") (some "low") none none none none =
      .error (.typeKind "CI lowerlimit values should be float or int") ∧
    check_data dfExT "est" "var" none (some "low") (some "bad") none none none none =
      .error (.typeKind "CI higherlimit values should be float or int") :=
  ⟨(claim_C4.1 dfExS "est" "var" "mo" [Val.str "3"] [Val.num 3] [Val.str "4"] [Val.num 4]
      (by decide) (by decide) (by decide) (by decide) (by decide) (by decide) (by decide)).1,
    (claim_C4.2.1 dfExS "est" "var" "low" "high" [Val.str "3"] [Val.num 3] [Val.str "1"]
      [Val.num 1] [Val.str "5"] [Val.num 5]
      (by decide) (by decide) (by decide) (by decide) (by decide) (by decide) (by decide)
      (by decide) (by decide) (by decide)).1,
    claim_C4.2.2.1 dfExT "bad" "var" (some "est") none none none none none none
      [Val.str "abc"] (by decide) (by decide),
    claim_C4.2.2.2.1 dfExT "est" "var" "bad" none none none none none none
      [Val.num 1] [Val.str "abc"] (by decide) (by decide) (by decide) (by decide),
    claim_C4.2.2.2.2.1 dfExT "est" "var" "bad" (some "low") none none none none
      [Val.num 1] [Val.str "abc"] (by decide) (by decide) (by decide) (by decide),
    claim_C4.2.2.2.2.2 dfExT "est" "var" "low" "bad" none none none none
      [Val.num 1] [Val.num 0] [Val.str "abc"]
      (by decide) (by decide) (by decide) (by decide) (by decide) (by decide)⟩

theorem memberCheck_bad (df : DataFrame) (L : List String) (c0 : String)
    (h : L.find? (fun c => !annGood df c) = some c0) :
    memberCheck df (some L) =
      .error (.constraintKind ("the field " ++ c0 ++ " is not found in dataframe.")) := by
  simp [memberCheck, h]

theorem memberCheck_good (df : DataFrame) (L : List String)
    (h : L.all (annGood df) = true) : memberCheck df (some L) = .ok () := by
  have hf : L.find? (fun c => !annGood df c) = none := by
    rw [List.find?_eq_none]
    intro x hx
    simpa using List.all_eq_true.mp h x hx
  simp [memberCheck, hf]

theorem find_bad_of_all_false (df : DataFrame) (L : List String)
    (h : L.all (annGood df) = false) :
    ∃ c0, L.find? (fun c => !annGood df c) = some c0 := by
  rcases hf : L.find? (fun c => !annGood df c) with _ | c0
  · have : L.all (annGood df) = true := by
      rw [List.all_eq_true]
      intro x hx
      have := List.find?_eq_none.mp hf x hx
      simpa using this
    rw [this] at h
    exact Bool.noConfusion h
  · exact ⟨c0, rfl⟩

theorem annTail_headerless (df2 : DataFrame) (v : String) (A R : List String) :
    annTail df2 v (some A) none (some R) none =
      match A.find? (fun c => !annGood df2 c) with
      | some c0 =>
          .error (.constraintKind ("the field " ++ c0 ++ " is not found in dataframe."))
      | none =>
          match R.find? (fun c => !annGood df2 c) with
          | some c0 =>
              .error (.constraintKind ("the field " ++ c0 ++ " is not found in dataframe."))
          | none => .ok (df2, warnLeft v (some A) ++ warnRight v (some R)) := by
  unfold annTail memberCheck
  cases hA : A.find? (fun c => !annGood df2 c) <;>
    cases hR : R.find? (fun c => !annGood df2 c) <;>
      simp [bindE, pairLen, hA, hR]

theorem find_bad_of_all_true (df : DataFrame) (L : List String)
    (h : L.all (annGood df) = true) : L.find? (fun c => !annGood df c) = none := by
  rw [List.find?_eq_none]
  intro x hx
  simpa using List.all_eq_true.mp h x hx

/-- Claim C5: with numeric columns in `moerror` mode and no header lists,
the call passes the membership check exactly when every entry of
`addannote` and `rightannote` is a column of the post-derivation table or
one of the fixed names `ci_range` / `est_ci` / `formatted_pval`; the
first offending entry (addannote scanned first, then rightannote) is
named in the `AssertionError`. -/
theorem claim_C5 :
    (∀ (df : DataFrame) (e v m : String) (ce cm : Col) (A R : List String),
        df.getCol e = some ce → isNumericCol ce = true →
        df.getCol m = some cm → isNumericCol cm = true →
        isOk (check_data df e v (some m) none none (some A) none (some R) none) =
          (A.all (annGood (deriveCI df e (some m) none none)) &&
            R.all (annGood (deriveCI df e (some m) none none)))) ∧
    (∀ (df : DataFrame) (e v m : String) (ce cm : Col) (A R : List String) (c0 : String),
        df.getCol e = some ce → isNumericCol ce = true →
        df.getCol m = some cm → isNumericCol cm = true →
        A.find? (fun c => !annGood (deriveCI df e (some m) none none) c) = some c0 →
        check_data df e v (some m) none none (some A) none (some R) none =
          .error (.constraintKind ("the field " ++ c0 ++ " is not found in dataframe."))) ∧
    (∀ (df : DataFrame) (e v m : String) (ce cm : Col) (A R : List String) (c0 : String),
        df.getCol e = some ce → isNumericCol ce = true →
        df.getCol m = some cm → isNumericCol cm = true →
        A.all (annGood (deriveCI df e (some m) none none)) = true →
        R.find? (fun c => !annGood (deriveCI df e (some m) none none) c) = some c0 →
        check_data df e v (some m) none none (some A) none (some R) none =
          .error (.constraintKind ("the field " ++ c0 ++ " is not found in dataframe."))) := by
  refine ⟨?_, ?_, ?_⟩
  · intro df e v m ce cm A R he hne hm hnm
    rw [check_data_eq_annTail df df e v (some m) none none (some A) none (some R) none
      (coerceAll_of_numeric df e (some m) none none ce he hne
        (numericArg_some df m cm hm hnm) (numericArg_none df) (numericArg_none df))
      (ciComplete_some m none none),
      annTail_headerless]
    cases hA : A.all (annGood (deriveCI df e (some m) none none)) with
    | true =>
        simp only [find_bad_of_all_true _ A hA]
        cases hR : R.all (annGood (deriveCI df e (some m) none none)) with
        | true => simp only [find_bad_of_all_true _ R hR]; rfl
        | false =>
            obtain ⟨c0, hc0⟩ := find_bad_of_all_false _ R hR
            simp only [hc0]
            rfl
    | false =>
        obtain ⟨c0, hc0⟩ := find_bad_of_all_false _ A hA
        simp only [hc0]
        rfl
  · intro df e v m ce cm A R c0 he hne hm hnm hA
    rw [check_data_eq_annTail df df e v (some m) none none (some A) none (some R) none
      (coerceAll_of_numeric df e (some m) none none ce he hne
        (numericArg_some df m cm hm hnm) (numericArg_none df) (numericArg_none df))
      (ciComplete_some m none none),
      annTail_headerless]
    simp only [hA]
  · intro df e v m ce cm A R c0 he hne hm hnm hA hR
    rw [check_data_eq_annTail df df e v (some m) none none (some A) none (some R) none
      (coerceAll_of_numeric df e (some m) none none ce he hne
        (numericArg_some df m cm hm hnm) (numericArg_none df) (numericArg_none df))
      (ciComplete_some m none none),
      annTail_headerless]
    simp only [find_bad_of_all_true _ A hA, hR]

/-- Witness for C5: existing columns plus the fixed derived names pass;
`"bogus"` in `addannote` and `"nope"` in `rightannote` each fail with the
error naming them. -/
theorem claim_C5_witness :
    isOk (check_data dfExA "est" "var" (some "mo") none none
      (some ["var", "ci_range"]) none (some ["est_ci"]) none) = true ∧
    check_data dfExA "est" "var" (some "mo") none none
      (some ["bogus"]) none (some ["var"]) none =
      .error (.constraintKind "the field bogus is not found in dataframe.") ∧
    check_data dfExA "est" "var" (some "mo") none none
      (some ["var"]) none (some ["nope"]) none =
      .error (.constraintKind "the field nope is not found in dataframe.") :=
  ⟨claim_C5.1 dfExA "est" "var" "mo" [Val.num 12, Val.num 8] [Val.num 3, Val.num 2]
      ["var", "ci_range"] ["est_ci"] (by decide) (by decide) (by decide) (by decide),
    claim_C5.2.1 dfExA "est" "var" "mo" [Val.num 12, Val.num 8] [Val.num 3, Val.num 2]
      ["bogus"] ["var"] "bogus" (by decide) (by decide) (by decide) (by decide) (by decide),
    claim_C5.2.2 dfExA "est" "var" "mo" [Val.num 12, Val.num 8] [Val.num 3, Val.num 2]
      ["var"] ["nope"] "nope" (by decide) (by decide) (by decide) (by decide) (by decide)
      (by decide)⟩

/-- Counterexample to C6: an otherwise-valid call whose `varlabel` occurs
in both `addannote` and `rightannote` succeeds but emits three warnings,
not one: the claim's "exactly one warning whenever varlabel is an entry
of addannote" fails at this input. -/
theorem claim_C6_cex :
    check_data dfExA "est" "var" (some "mo") none none
      (some ["var"]) none (some ["var"]) none =
      .ok ((dfExA.setCol "ll" (subCol [Val.num 12, Val.num 8] [Val.num 3, Val.num 2])).setCol
        "hl" (addCol [Val.num 12, Val.num 8] [Val.num 3, Val.num 2]),
        warnLeft "var" (some ["var"]) ++ warnRight "var" (some ["var"])) ∧
    (warnLeft "var" (some ["var"]) ++ warnRight "var" (some ["var"])).length = 3 :=
  ⟨rfl, rfl⟩

/-- Claim C6 as amended: an otherwise-valid call always succeeds whatever
the warnings; it emits exactly one warning when `varlabel` is an entry of
`addannote` only, exactly two when it is an entry of `rightannote` only,
and three when it is in both (the right-side warning is issued twice by
the source). -/
theorem claim_C6_amended :
    ∀ (df : DataFrame) (e v m : String) (ce cm : Col) (A R : List String),
      df.getCol e = some ce → isNumericCol ce = true →
      df.getCol m = some cm → isNumericCol cm = true →
      A.all (annGood (deriveCI df e (some m) none none)) = true →
      R.all (annGood (deriveCI df e (some m) none none)) = true →
      check_data df e v (some m) none none (some A) none (some R) none =
        .ok (deriveCI df e (some m) none none,
          warnLeft v (some A) ++ warnRight v (some R)) ∧
      (warnLeft v (some A) ++ warnRight v (some R)).length =
        (if A.contains v then 1 else 0) + (if R.contains v then 2 else 0) := by
  intro df e v m ce cm A R he hne hm hnm hA hR
  constructor
  · rw [check_data_eq_annTail df df e v (some m) none none (some A) none (some R) none
      (coerceAll_of_numeric df e (some m) none none ce he hne
        (numericArg_some df m cm hm hnm) (numericArg_none df) (numericArg_none df))
      (ciComplete_some m none none),
      annTail_headerless]
    simp only [find_bad_of_all_true _ A hA, find_bad_of_all_true _ R hR]
  · by_cases hA2 : v ∈ A <;> by_cases hR2 : v ∈ R <;>
      simp [warnLeft, warnRight, hA2, hR2]

/-- Witness for the amended C6: one warning for `varlabel` in `addannote`
only, two for `varlabel` in `rightannote` only. -/
theorem claim_C6_amended_witness :
    (check_data dfExA "est" "var" (some "mo") none none
        (some ["var"]) none (some ["mo"]) none =
      .ok (deriveCI dfExA "est" (some "mo") none none,
        warnLeft "var" (some ["var"]) ++ warnRight "var" (some ["mo"])) ∧
      (warnLeft "var" (some ["var"]) ++ warnRight "var" (some ["mo"])).length = 1) ∧
    (check_data dfExA "est" "var" (some "mo") none none
        (some ["mo"]) none (some ["var"]) none =
      .ok (deriveCI dfExA "est" (some "mo") none none,
        warnLeft "var" (some ["mo"]) ++ warnRight "var" (some ["var"])) ∧
      (warnLeft "var" (some ["mo"]) ++ warnRight "var" (some ["var"])).length = 2) :=
  ⟨claim_C6_amended dfExA "est" "var" "mo" [Val.num 12, Val.num 8] [Val.num 3, Val.num 2]
      ["var"] ["mo"] (by decide) (by decide) (by decide) (by decide) (by decide) (by decide),
    claim_C6_amended dfExA "est" "var" "mo" [Val.num 12, Val.num 8] [Val.num 3, Val.num 2]
      ["mo"] ["var"] (by decide) (by decide) (by decide) (by decide) (by decide) (by decide)⟩

/-- Counterexample to C8: `"MORTALITY"` is not a member of the recognized
set (which holds only the lowercase `"mortality"`), yet `load_data`
succeeds on it and takes the fetch branch, because the name is lowercased
and stripped before matching. -/
theorem claim_C8_cex :
    available_data.contains "MORTALITY" = false ∧
    load_data "MORTALITY" =
      .ok (.fetch
        "https://raw.githubusercontent.com/lsys/pyforestplot/main/examples/data/mortality.csv") :=
  ⟨rfl, rfl⟩

/-- Claim C8 as amended: for every name whose lowercased and stripped
form is not in the recognized set, `load_data` fails with the
`AssertionError` listing `mortality` as the only valid option, and no
fetch is performed. -/
theorem claim_C8_amended :
    ∀ name : String, available_data.contains (pyStrip (pyLower name)) = false →
      load_data name =
        .error (.constraintKind
          (pyStrip (pyLower name) ++ " not found. Should be one of 'mortality'")) := by
  intro name h
  unfold load_data
  simp only [h, Bool.false_eq_true, if_false, String.append_assoc]
  rfl

/-- Witness for the amended C8: `load_data "unknown"` fails with the
message listing the single valid name. -/
theorem claim_C8_amended_witness :
    available_data.contains (pyStrip (pyLower "unknown")) = false ∧
    load_data "unknown" =
      .error (.constraintKind "unknown not found. Should be one of 'mortality'") :=
  ⟨by decide, claim_C8_amended "unknown" (by decide)⟩

/-- Claim C9: `load_data` lowercases and strips its argument before
matching, so every name normalizing to `"mortality"` takes the fetch
branch, and a rejected call reports the normalized name (not the original
argument) in its error message. -/
theorem claim_C9 :
    (∀ s : String, pyStrip (pyLower s) = "mortality" →
        load_data s =
          .ok (.fetch
            "https://raw.githubusercontent.com/lsys/pyforestplot/main/examples/data/mortality.csv")) ∧
    (∀ s : String, available_data.contains (pyStrip (pyLower s)) = false →
        load_data s =
          .error (.constraintKind
            (pyStrip (pyLower s) ++ " not found. Should be one of 'mortality'"))) := by
  constructor
  · intro s h
    unfold load_data
    rw [h]
    rfl
  · intro s h
    unfold load_data
    simp only [h, Bool.false_eq_true, if_false, String.append_assoc]
    rfl

/-- Witness for C9: `"MORTALITY "` normalizes to `"mortality"` and is
fetched; `" Foo"` is rejected with a message naming the normalized
`"foo"`, not the original argument. -/
theorem claim_C9_witness :
    load_data "MORTALITY " =
      .ok (.fetch
        "https://raw.githubusercontent.com/lsys/pyforestplot/main/examples/data/mortality.csv") ∧
    load_data " Foo" =
      .error (.constraintKind "foo not found. Should be one of 'mortality'") :=
  ⟨claim_C9.1 "MORTALITY " (by decide), claim_C9.2 " Foo" (by decide)⟩
